import Mathlib

/-!
Shallow embedding of the Game of Life board engine in `src/app.py`
(repository Elpoko/lifegame), together with theorems checking the
natural-language specification against it.

Python lists of ints become `List Nat`; Python ints become `Int`
(`rows`/`columns` may legally be set to any integer by `change_size`);
the float `p_live` is modelled as `ℚ` (the engine only clamps and
compares it, never does arithmetic on it, so no rounding is involved);
`random.random()` is modelled as an explicit stream `Nat → ℚ` of draws;
the unbounded retry loop of `randomize` takes explicit fuel; methods
that report HTTP 400 errors return the (possibly unchanged) board
paired with an optional error label.
-/

namespace Lifegame

/-- A grid is a Python list of rows, each a list of ints (0 or 1 for
well-formed boards). -/
abbrev Grid := List (List Nat)

/-- `board_state[i][j]`; out-of-range access yields 0 (the code only
indexes in range, guarded by explicit bounds checks). -/
def getCell (g : Grid) (i j : Nat) : Nat := (g.getD i []).getD j 0

/-- Error taxonomy of the spec, for the 400 responses of the code. -/
inductive BoardError where
  | invalidDimension
  | dimensionTooLarge
  | shapeMismatch
  | invalidCellValue
deriving DecidableEq, Repr

/-- `MAX_ROWS = 50` (src/app.py line 22). -/
def MAX_ROWS : Int := 50

/-- `MAX_COLUMNS = 50` (src/app.py line 23). -/
def MAX_COLUMNS : Int := 50

/-- `P_LIVE = 0.5` (src/app.py line 21). -/
def P_LIVE : ℚ := 1/2

/-- The `Board` class state (src/app.py lines 27-33). -/
structure Board where
  rows : Int
  columns : Int
  board_state : Grid
  previous_state : Option Grid
  p_live : ℚ
deriving DecidableEq, Repr

/-- `[[0 for _ in range(columns)] for _ in range(rows)]`
(Python `range` of a non-positive int is empty, hence `Int.toNat`). -/
def zeroGrid (rows columns : Int) : Grid :=
  List.replicate rows.toNat (List.replicate columns.toNat 0)

/-- `Board.__init__` (src/app.py lines 28-33). -/
def Board.init (rows columns : Int) : Board :=
  { rows := min rows MAX_ROWS
    columns := min columns MAX_COLUMNS
    board_state := zeroGrid (min rows MAX_ROWS) (min columns MAX_COLUMNS)
    previous_state := none
    p_live := P_LIVE }

/-- One iteration body of the double loop of `count_live_neighbors`
(src/app.py lines 150-155): skip the center, skip out-of-bounds, else
add the cell value. -/
def neighborContrib (b : Board) (row col i j : Int) : Nat :=
  if i = row ∧ j = col then 0
  else if 0 ≤ i ∧ i < b.rows ∧ 0 ≤ j ∧ j < b.columns then
    getCell b.board_state i.toNat j.toNat
  else 0

/-- The nine `(i - row, j - col)` offsets visited by
`for i in range(row-1, row+2): for j in range(col-1, col+2)`. -/
def neighborOffsets : List (Int × Int) :=
  [(-1, -1), (-1, 0), (-1, 1), (0, -1), (0, 0), (0, 1), (1, -1), (1, 0), (1, 1)]

/-- `count_live_neighbors(board, row, col)` (src/app.py lines 148-156). -/
def count_live_neighbors (b : Board) (row col : Int) : Nat :=
  (neighborOffsets.map fun d => neighborContrib b row col (row + d.1) (col + d.2)).sum

/-- `update_cell(board, live_neighbors, row, col)` (src/app.py lines 158-165). -/
def update_cell (b : Board) (live_neighbors : Nat) (row col : Nat) : Nat :=
  let current_state := getCell b.board_state row col
  if current_state = 1 ∧ (live_neighbors < 2 ∨ live_neighbors > 3) then 0
  else if current_state = 0 ∧ live_neighbors = 3 then 1
  else current_state

/-- The fresh buffer `new_board_state` filled by the double loop of
`Board.update` (src/app.py lines 51-55). -/
def newBoardState (b : Board) : Grid :=
  (List.range b.rows.toNat).map fun (i : Nat) =>
    (List.range b.columns.toNat).map fun (j : Nat) =>
      update_cell b (count_live_neighbors b (i : Int) (j : Int)) i j

/-- `Board.update` (src/app.py lines 47-63): build the new grid in a
separate buffer, compute `is_static = (board_state == new_board_state)`
against the pre-call grid, save the pre-call grid in `previous_state`,
install the new grid, return `is_static`. -/
def Board.update (b : Board) : Board × Bool :=
  let new_board_state := newBoardState b
  ({ b with previous_state := some b.board_state
            board_state := new_board_state },
   decide (b.board_state = new_board_state))

/-- `Board.is_static` (src/app.py lines 65-66); Python `None == list`
is `False`. -/
def Board.is_static (b : Board) : Bool :=
  match b.previous_state with
  | none => false
  | some p => decide (p = b.board_state)

/-- `Board.check_for_life` (src/app.py lines 68-73). -/
def Board.check_for_life (b : Board) : Bool :=
  (List.range b.rows.toNat).any fun i =>
    (List.range b.columns.toNat).any fun j =>
      decide (getCell b.board_state i j = 1)

/-- `Board.customise` (src/app.py lines 75-92): Python `not new_board`
is true iff the received list is empty; then the shape check, then the
per-row 0/1 check; mutation happens only after all checks pass. -/
def Board.customise (b : Board) (new_board : Grid) : Board × Option BoardError :=
  if new_board = [] ∨ (new_board.length : Int) ≠ b.rows
      ∨ new_board.any (fun row => decide ((row.length : Int) ≠ b.columns)) then
    (b, some .shapeMismatch)
  else if new_board.any (fun row => row.any fun cell => decide (¬(cell = 0 ∨ cell = 1))) then
    (b, some .invalidCellValue)
  else
    ({ b with board_state := new_board }, none)

/-- One JSON argument to `change_size`, as seen through
`int(data.get(key, default))`: absent key, an int-convertible value, or
a value on which `int(...)` raises `ValueError`. -/
inductive IntArg where
  | missing
  | val (n : Int)
  | malformed
deriving DecidableEq, Repr

/-- Result of `int(data.get(key, default))`: `none` iff `int` raises. -/
def intConv (a : IntArg) (default : Int) : Option Int :=
  match a with
  | .missing => some default
  | .val n => some n
  | .malformed => none

/-- `Board.change_size` (src/app.py lines 94-114): convert both
arguments (ValueError → 400 "must be integers"), reject values above
the maxima (400 "cannot exceed"), else install the new dimensions and
an all-zero grid. No lower bound is checked, and `previous_state` is
not touched. -/
def Board.change_size (b : Board) (rows_arg columns_arg : IntArg) :
    Board × Option BoardError :=
  match intConv rows_arg b.rows, intConv columns_arg b.columns with
  | some new_rows, some new_columns =>
    if new_rows > MAX_ROWS ∨ new_columns > MAX_COLUMNS then
      (b, some .dimensionTooLarge)
    else
      ({ b with rows := new_rows
                columns := new_columns
                board_state := zeroGrid new_rows new_columns }, none)
  | _, _ => (b, some .invalidDimension)

/-- `Board.clear` (src/app.py lines 132-134). -/
def Board.clear (b : Board) : Board :=
  { b with board_state := zeroGrid b.rows b.columns }

/-- `Board.fill` (src/app.py lines 136-138). -/
def Board.fill (b : Board) : Board :=
  { b with board_state := List.replicate b.rows.toNat (List.replicate b.columns.toNat 1) }

/-- `Board.set_p_live` (src/app.py lines 140-141): `max(0, min(1, p_live))`. -/
def Board.set_p_live (b : Board) (p_live : ℚ) : Board :=
  { b with p_live := max 0 (min 1 p_live) }

/-- One sampled grid of the `randomize` loop body (src/app.py line 42):
cell `(i,j)` is 1 iff the corresponding draw of `random.random()` is
below `p_live`; `k` is the index of the first unused draw of the
stream. -/
def sampleGrid (b : Board) (rand : Nat → ℚ) (k : Nat) : Grid :=
  (List.range b.rows.toNat).map fun i =>
    (List.range b.columns.toNat).map fun j =>
      if rand (k + (i * b.columns.toNat + j)) < b.p_live then 1 else 0

/-- The `while True` retry loop of `Board.randomize` (src/app.py lines
41-44), with explicit fuel: install a sampled grid, exit once
`check_for_life` holds, else resample. `none` means the fuel ran out
(the Python loop is unbounded). -/
def randomizeAux (b : Board) (rand : Nat → ℚ) : Nat → Nat → Option Board
  | 0, _ => none
  | fuel + 1, k =>
    let b' := { b with board_state := sampleGrid b rand k }
    if b'.check_for_life then some b'
    else randomizeAux b rand fuel (k + b.rows.toNat * b.columns.toNat)

/-- `Board.randomize` (src/app.py lines 38-45). -/
def Board.randomize (b : Board) (rand : Nat → ℚ) (fuel : Nat) : Option Board :=
  randomizeAux b rand fuel 0

/-! ### Spec-side definitions

These follow the words of the specification (not the code); the
refinement theorems below compare them with the code-side definitions
above. -/

/-- The eight neighbor offsets of the 3×3 block centered on a cell,
center excluded. -/
def offsets8 : List (Int × Int) :=
  [(-1, -1), (-1, 0), (-1, 1), (0, -1), (0, 1), (1, -1), (1, 0), (1, 1)]

/-- Spec-side neighbor count: over the 3×3 block centered on `(r,c)`,
skipping the center and any out-of-bounds coordinate, count the ALIVE
cells. -/
def specNeighborCount (g : Grid) (rows columns : Int) (r c : Int) : Nat :=
  offsets8.countP fun d =>
    decide (0 ≤ r + d.1 ∧ r + d.1 < rows ∧ 0 ≤ c + d.2 ∧ c + d.2 < columns ∧
      getCell g (r + d.1).toNat (c + d.2).toNat = 1)

/-- Spec-side rule: an ALIVE cell with neighbor count < 2 or > 3
becomes DEAD, an ALIVE cell with count 2 or 3 stays ALIVE, a DEAD cell
with count exactly 3 becomes ALIVE, any other DEAD cell stays DEAD. -/
def specRule (alive : Bool) (n : Nat) : Bool :=
  if alive then
    if n < 2 ∨ n > 3 then false else true
  else
    if n = 3 then true else false

/-- A grid all of whose entries are 0 or 1 (every reachable board state
satisfies this). -/
def validGrid (g : Grid) : Prop := ∀ row ∈ g, ∀ cell ∈ row, cell = 0 ∨ cell = 1

instance (g : Grid) : Decidable (validGrid g) :=
  decidable_of_iff (∀ row ∈ g, ∀ cell ∈ row, cell = 0 ∨ cell = 1) Iff.rfl

/-- The grid whose only ALIVE cell is `(r,c)` (when `(r,c)` is in
bounds). -/
def singleGrid (rows columns : Int) (r c : Nat) : Grid :=
  (List.range rows.toNat).map fun (i : Nat) =>
    (List.range columns.toNat).map fun (j : Nat) =>
      if i = r ∧ j = c then 1 else 0

/-- A 3×3 blinker configuration, a concrete fixture for witnesses. -/
def blinkerBoard : Board :=
  { rows := 3
    columns := 3
    board_state := [[0, 0, 0], [1, 1, 1], [0, 0, 0]]
    previous_state := none
    p_live := 1/2 }

/-- A 3×3 board whose only ALIVE cell is `(1,1)`, a concrete fixture. -/
def singleBoard : Board :=
  { rows := 3
    columns := 3
    board_state := singleGrid 3 3 1 1
    previous_state := none
    p_live := 1/2 }

/-- A 1×1 board that carries a `previous_state` snapshot, a concrete
fixture for the `previous_state` frame claims. -/
def historyBoard : Board :=
  { rows := 1
    columns := 1
    board_state := [[0]]
    previous_state := some [[1]]
    p_live := 1/2 }

/-! ### Helper lemmas -/

lemma getD_map_range {α : Type} (n : Nat) (f : Nat → α) (i : Nat) (d : α)
    (h : i < n) : ((List.range n).map f).getD i d = f i := by
  rw [List.getD_eq_getElem?_getD]
  simp [List.getElem?_map, List.getElem?_range, h]

lemma getD_map_range_ge {α : Type} (n : Nat) (f : Nat → α) (i : Nat) (d : α)
    (h : ¬ i < n) : ((List.range n).map f).getD i d = d := by
  rw [List.getD_eq_getElem?_getD]
  have hnone : (List.range n)[i]? = none := by
    rw [List.getElem?_eq_none]
    simpa using h
  simp [List.getElem?_map, hnone]

lemma getCell_valid {g : Grid} (hv : validGrid g) (i j : Nat) :
    getCell g i j = 0 ∨ getCell g i j = 1 := by
  unfold getCell
  rcases h : g[i]? with _ | row
  · left
    simp [List.getD_eq_getElem?_getD, h]
  · rcases h2 : row[j]? with _ | cell
    · left
      simp [List.getD_eq_getElem?_getD, h, h2]
    · have hrow : row ∈ g := List.getElem?_mem h
      have hcell : cell ∈ row := List.getElem?_mem h2
      have hval := hv row hrow cell hcell
      simp only [List.getD_eq_getElem?_getD, h, h2, Option.getD_some]
      exact hval

lemma getCell_zeroGrid (rows columns : Int) (i j : Nat) :
    getCell (zeroGrid rows columns) i j = 0 := by
  unfold getCell zeroGrid
  simp only [List.getD_eq_getElem?_getD, List.getElem?_replicate]
  rcases Nat.lt_or_ge i rows.toNat with h | h
  · rw [if_pos h, Option.getD_some, List.getElem?_replicate]
    rcases Nat.lt_or_ge j columns.toNat with h2 | h2
    · rw [if_pos h2, Option.getD_some]
    · rw [if_neg (by omega), Option.getD_none]
  · rw [if_neg (by omega), Option.getD_none]
    simp

lemma getCell_singleGrid (rows columns : Int) (r c i j : Nat) :
    getCell (singleGrid rows columns r c) i j =
      if i = r ∧ j = c ∧ i < rows.toNat ∧ j < columns.toNat then 1 else 0 := by
  unfold getCell singleGrid
  rcases Nat.lt_or_ge i rows.toNat with hi | hi
  · rw [getD_map_range _ _ _ _ hi]
    rcases Nat.lt_or_ge j columns.toNat with hj | hj
    · rw [getD_map_range _ _ _ _ hj]
      by_cases hc : i = r ∧ j = c
      · rw [if_pos hc, if_pos ⟨hc.1, hc.2, hi, hj⟩]
      · rw [if_neg hc, if_neg (by tauto)]
    · rw [getD_map_range_ge _ _ _ _ (by omega), if_neg (by omega)]
  · rw [getD_map_range_ge _ _ _ _ (by omega)]
    rw [if_neg (by omega)]
    simp

lemma contrib_center (b : Board) (row col : Int) :
    neighborContrib b row col (row + 0) (col + 0) = 0 := by
  simp [neighborContrib]

lemma contrib_eq (b : Board) (hv : validGrid b.board_state) (row col i j : Int)
    (h : ¬(i = row ∧ j = col)) :
    neighborContrib b row col i j =
      if 0 ≤ i ∧ i < b.rows ∧ 0 ≤ j ∧ j < b.columns ∧
          getCell b.board_state i.toNat j.toNat = 1 then 1 else 0 := by
  unfold neighborContrib
  rw [if_neg h]
  by_cases hb : 0 ≤ i ∧ i < b.rows ∧ 0 ≤ j ∧ j < b.columns
  · rw [if_pos hb]
    rcases getCell_valid hv i.toNat j.toNat with h0 | h1
    · rw [h0, if_neg (by omega)]
    · rw [h1, if_pos ⟨hb.1, hb.2.1, hb.2.2.1, hb.2.2.2, rfl⟩]
  · rw [if_neg hb, if_neg (by tauto)]

lemma count_eq_spec (b : Board) (hv : validGrid b.board_state) (row col : Int) :
    count_live_neighbors b row col =
      specNeighborCount b.board_state b.rows b.columns row col := by
  unfold count_live_neighbors specNeighborCount neighborOffsets offsets8
  simp only [List.map_cons, List.map_nil, List.sum_cons, List.sum_nil,
    List.countP_cons, List.countP_nil, decide_eq_true_eq]
  rw [contrib_eq b hv row col (row + -1) (col + -1) (by omega),
      contrib_eq b hv row col (row + -1) (col + 0) (by omega),
      contrib_eq b hv row col (row + -1) (col + 1) (by omega),
      contrib_eq b hv row col (row + 0) (col + -1) (by omega),
      contrib_center,
      contrib_eq b hv row col (row + 0) (col + 1) (by omega),
      contrib_eq b hv row col (row + 1) (col + -1) (by omega),
      contrib_eq b hv row col (row + 1) (col + 0) (by omega),
      contrib_eq b hv row col (row + 1) (col + 1) (by omega)]
  omega

lemma update_cell_eq_spec (b : Board) (hv : validGrid b.board_state)
    (n : Nat) (i j : Nat) :
    update_cell b n i j =
      if specRule (decide (getCell b.board_state i j = 1)) n then 1 else 0 := by
  unfold update_cell specRule
  rcases getCell_valid hv i j with h0 | h1
  · rw [h0]
    simp only [decide_eq_true_eq]
    by_cases h3 : n = 3
    · simp [h3]
    · simp [h3]
  · rw [h1]
    simp only [decide_eq_true_eq]
    by_cases hn : n < 2 ∨ n > 3
    · simp [hn]
    · simp [hn]

lemma getCell_newBoardState (b : Board) (i j : Nat)
    (hi : i < b.rows.toNat) (hj : j < b.columns.toNat) :
    getCell (newBoardState b) i j =
      update_cell b (count_live_neighbors b (i : Int) (j : Int)) i j := by
  unfold getCell newBoardState
  rw [getD_map_range _ _ _ _ hi, getD_map_range _ _ _ _ hj]

lemma count_zero (b : Board) (h : ∀ i j : Nat, getCell b.board_state i j = 0)
    (row col : Int) : count_live_neighbors b row col = 0 := by
  simp [count_live_neighbors, neighborOffsets, neighborContrib, h]

lemma map_range_const {α : Type} (n : Nat) (f : Nat → α) (a : α)
    (h : ∀ i, i < n → f i = a) : (List.range n).map f = List.replicate n a := by
  rw [List.eq_replicate_iff]
  refine ⟨by simp, ?_⟩
  intro x hx
  simp only [List.mem_map, List.mem_range] at hx
  obtain ⟨i, hi, rfl⟩ := hx
  exact h i hi

lemma newBoardState_of_dead (b : Board)
    (h : ∀ i j : Nat, getCell b.board_state i j = 0) :
    newBoardState b = zeroGrid b.rows b.columns := by
  unfold newBoardState zeroGrid
  apply map_range_const
  intro i _
  apply map_range_const
  intro j _
  unfold update_cell
  rw [h i j, count_zero b h]
  simp

lemma count_single_center (b : Board) (r c : Nat)
    (hb : b.board_state = singleGrid b.rows b.columns r c) :
    count_live_neighbors b (r : Int) (c : Int) = 0 := by
  have h : ∀ di dj : Int, ¬(di = 0 ∧ dj = 0) →
      neighborContrib b r c ((r : Int) + di) ((c : Int) + dj) = 0 := by
    intro di dj hd
    unfold neighborContrib
    by_cases hcen : (r : Int) + di = (r : Int) ∧ (c : Int) + dj = (c : Int)
    · rw [if_pos hcen]
    · rw [if_neg hcen]
      by_cases hbnd : 0 ≤ (r : Int) + di ∧ (r : Int) + di < b.rows ∧
          0 ≤ (c : Int) + dj ∧ (c : Int) + dj < b.columns
      · rw [if_pos hbnd, hb, getCell_singleGrid, if_neg (by omega)]
      · rw [if_neg hbnd]
  unfold count_live_neighbors neighborOffsets
  simp only [List.map_cons, List.map_nil, List.sum_cons, List.sum_nil]
  rw [h (-1) (-1) (by omega), h (-1) 0 (by omega), h (-1) 1 (by omega),
      h 0 (-1) (by omega), contrib_center, h 0 1 (by omega),
      h 1 (-1) (by omega), h 1 0 (by omega), h 1 1 (by omega)]
  omega

lemma check_for_life_iff (b : Board) :
    b.check_for_life = true ↔
      ∃ i j : Nat, i < b.rows.toNat ∧ j < b.columns.toNat ∧
        getCell b.board_state i j = 1 := by
  unfold Board.check_for_life
  simp only [List.any_eq_true, List.mem_range, decide_eq_true_eq]
  constructor
  · rintro ⟨i, hi, j, hj, h⟩
    exact ⟨i, j, hi, hj, h⟩
  · rintro ⟨i, j, hi, hj, h⟩
    exact ⟨i, hi, j, hj, h⟩

lemma randomizeAux_life (b : Board) (rand : Nat → ℚ) :
    ∀ (fuel k : Nat) (b' : Board), randomizeAux b rand fuel k = some b' →
      b'.check_for_life = true := by
  intro fuel
  induction fuel with
  | zero => intro k b' h; cases h
  | succ n ih =>
    intro k b' h
    unfold randomizeAux at h
    by_cases hc : ({ b with board_state := sampleGrid b rand k } : Board).check_for_life
    · rw [if_pos hc] at h
      cases h
      exact hc
    · rw [if_neg hc] at h
      exact ih _ _ h

/-! ### Claim theorems -/

/-- C1: `update` computes the next generation cell-by-cell from the
pre-update grid only. Every in-bounds cell of the grid installed by
`update` — which is built as a pure function of the pre-call grid into
a separate buffer, so no cell's update can read an already-updated
neighbor — equals the spec-side rule applied to the pre-call grid: the
ALIVE neighbors are counted over the 3×3 block centered on the cell,
skipping the center and any out-of-bounds coordinate, and then an ALIVE
cell with count < 2 or > 3 becomes DEAD, an ALIVE cell with count 2 or
3 stays ALIVE, a DEAD cell with count exactly 3 becomes ALIVE, and any
other DEAD cell stays DEAD. -/
theorem advance_computes_life_rule (b : Board) (i j : Nat)
    (hv : validGrid b.board_state)
    (hi : (i : Int) < b.rows) (hj : (j : Int) < b.columns) :
    getCell (b.update).1.board_state i j =
      if specRule (decide (getCell b.board_state i j = 1))
          (specNeighborCount b.board_state b.rows b.columns i j)
      then 1 else 0 := by
  have h1 : (b.update).1.board_state = newBoardState b := rfl
  rw [h1, getCell_newBoardState b i j (by omega) (by omega),
    count_eq_spec b hv i j, update_cell_eq_spec b hv _ i j]

/-- Witness for C1 at the blinker fixture, cell (0,1). -/
theorem advance_computes_life_rule_witness :
    getCell (blinkerBoard.update).1.board_state 0 1 =
      if specRule (decide (getCell blinkerBoard.board_state 0 1 = 1))
          (specNeighborCount blinkerBoard.board_state blinkerBoard.rows
            blinkerBoard.columns 0 1)
      then 1 else 0 :=
  advance_computes_life_rule blinkerBoard 0 1 (by decide) (by decide) (by decide)

/-- C2: `update` sets `previous_state` to the pre-call grid, replaces
`board_state` with the newly computed grid, and returns true iff the new
grid is cell-for-cell equal to the pre-call grid; in particular it
returns true on an all-DEAD board, and on a board whose only ALIVE cell
is `(r,c)` that cell dies and the call returns false. -/
theorem advance_static_signal (b : Board) :
    (b.update).1.previous_state = some b.board_state ∧
    (b.update).1.board_state = newBoardState b ∧
    ((b.update).2 = true ↔ newBoardState b = b.board_state) ∧
    (b.board_state = zeroGrid b.rows b.columns → (b.update).2 = true) ∧
    (∀ r c : Nat, b.board_state = singleGrid b.rows b.columns r c →
      (r : Int) < b.rows → (c : Int) < b.columns →
      getCell (b.update).1.board_state r c = 0 ∧ (b.update).2 = false) := by
  refine ⟨rfl, rfl, ?_, ?_, ?_⟩
  · show decide (b.board_state = newBoardState b) = true ↔ _
    rw [decide_eq_true_eq]
    exact eq_comm
  · intro hz
    have hdead : ∀ i j : Nat, getCell b.board_state i j = 0 := by
      intro i j
      rw [hz]
      exact getCell_zeroGrid _ _ i j
    show decide (b.board_state = newBoardState b) = true
    rw [newBoardState_of_dead b hdead, ← hz]
    simp
  · intro r c hb hr hc
    have hrn : r < b.rows.toNat := by omega
    have hcn : c < b.columns.toNat := by omega
    have hcur : getCell b.board_state r c = 1 := by
      rw [hb, getCell_singleGrid, if_pos ⟨rfl, rfl, hrn, hcn⟩]
    have hnew : getCell (newBoardState b) r c = 0 := by
      rw [getCell_newBoardState b r c hrn hcn, count_single_center b r c hb]
      simp [update_cell, hcur]
    refine ⟨hnew, ?_⟩
    show decide (b.board_state = newBoardState b) = false
    apply decide_eq_false
    intro he
    have hx : getCell b.board_state r c = getCell (newBoardState b) r c := by
      rw [he]
    rw [hcur, hnew] at hx
    exact absurd hx (by omega)

/-- Witness for C2 at the single-ALIVE-cell fixture: the cell dies and
the static signal is false. -/
theorem advance_static_signal_witness :
    getCell (singleBoard.update).1.board_state 1 1 = 0 ∧
      (singleBoard.update).2 = false :=
  (advance_static_signal singleBoard).2.2.2.2 1 1 rfl (by decide) (by decide)

/-- C10: the boolean returned by `update` agrees with `is_static`
evaluated on the post-call board: both compare the pre-call grid with
the newly installed grid. -/
theorem advance_returns_is_static (b : Board) :
    (b.update).2 = (b.update).1.is_static := rfl

/-- C3 counterexample: `change_size(0, 5)` does not fail — the code
checks only the upper bound and the int conversion, never
non-positivity — so the claim that `Resize(0,5)` fails with
`InvalidDimension` is false: the call succeeds and installs 0 rows. -/
theorem resize_zero_counterexample :
    ((Board.init 8 8).change_size (.val 0) (.val 5)).2 = none ∧
    ((Board.init 8 8).change_size (.val 0) (.val 5)).1.rows = 0 ∧
    ((Board.init 8 8).change_size (.val 0) (.val 5)).1.columns = 5 := by
  decide

/-- C3 (amended): `change_size` fails with `InvalidDimension` exactly
when the `int(...)` conversion of either argument raises; fails with
`DimensionTooLarge` when either converted value exceeds its maximum
(50); and otherwise succeeds — in particular any non-positive integer
dimension is accepted. -/
theorem resize_error_conditions (b : Board) (ra ca : IntArg) :
    ((intConv ra b.rows = none ∨ intConv ca b.columns = none) →
      b.change_size ra ca = (b, some .invalidDimension)) ∧
    (∀ nr nc : Int, intConv ra b.rows = some nr → intConv ca b.columns = some nc →
      ((nr > MAX_ROWS ∨ nc > MAX_COLUMNS) →
        b.change_size ra ca = (b, some .dimensionTooLarge)) ∧
      (nr ≤ MAX_ROWS → nc ≤ MAX_COLUMNS → (b.change_size ra ca).2 = none)) := by
  constructor
  · intro h
    unfold Board.change_size
    rcases hra : intConv ra b.rows with _ | nr
    · rfl
    · rcases hca : intConv ca b.columns with _ | nc
      · rfl
      · rw [hra, hca] at h
        rcases h with h | h <;> cases h
  · intro nr nc hra hca
    unfold Board.change_size
    rw [hra, hca]
    dsimp only
    constructor
    · intro hgt
      rw [if_pos hgt]
    · intro h1 h2
      rw [if_neg (by push_neg; exact ⟨h1, h2⟩)]

/-- Witness for C3 (amended): a malformed row argument yields
`InvalidDimension`, and `change_size(51, 5)` yields
`DimensionTooLarge`. -/
theorem resize_error_conditions_witness :
    (Board.init 8 8).change_size .malformed (.val 5) =
      (Board.init 8 8, some .invalidDimension) ∧
    (Board.init 8 8).change_size (.val 51) (.val 5) =
      (Board.init 8 8, some .dimensionTooLarge) :=
  ⟨(resize_error_conditions (Board.init 8 8) .malformed (.val 5)).1 (Or.inl rfl),
   ((resize_error_conditions (Board.init 8 8) (.val 51) (.val 5)).2 51 5 rfl rfl).1
     (Or.inl (by decide))⟩

/-- C6 counterexample: a successful `change_size` does not discard
`previous_state` — on a board carrying a snapshot, the snapshot is
still there after a successful resize. -/
theorem resize_keeps_previous_counterexample :
    (historyBoard.change_size (.val 2) (.val 2)).2 = none ∧
    (historyBoard.change_size (.val 2) (.val 2)).1.previous_state ≠ none ∧
    (historyBoard.change_size (.val 2) (.val 2)).1.previous_state = some [[1]] := by
  refine ⟨rfl, ?_, rfl⟩
  intro h
  cases h

/-- C6 (amended): on success `change_size` sets `rows` and `columns`
to the requested values and reallocates `board_state` to an all-DEAD
grid of the new dimensions, but leaves `previous_state` unchanged
(it is not discarded). -/
theorem resize_success_effects (b : Board) (ra ca : IntArg) (nr nc : Int)
    (hra : intConv ra b.rows = some nr) (hca : intConv ca b.columns = some nc)
    (h1 : nr ≤ MAX_ROWS) (h2 : nc ≤ MAX_COLUMNS) :
    (b.change_size ra ca).2 = none ∧
    (b.change_size ra ca).1.rows = nr ∧
    (b.change_size ra ca).1.columns = nc ∧
    (b.change_size ra ca).1.board_state = zeroGrid nr nc ∧
    (∀ i j : Nat, getCell (b.change_size ra ca).1.board_state i j = 0) ∧
    (b.change_size ra ca).1.previous_state = b.previous_state ∧
    (b.change_size ra ca).1.p_live = b.p_live := by
  unfold Board.change_size
  rw [hra, hca]
  dsimp only
  rw [if_neg (by push_neg; exact ⟨h1, h2⟩)]
  refine ⟨rfl, rfl, rfl, rfl, ?_, rfl, rfl⟩
  intro i j
  exact getCell_zeroGrid nr nc i j

/-- Witness for C6 (amended) at a concrete resize to 2×3. -/
theorem resize_success_effects_witness :
    ((Board.init 8 8).change_size (.val 2) (.val 3)).2 = none ∧
    ((Board.init 8 8).change_size (.val 2) (.val 3)).1.rows = 2 ∧
    ((Board.init 8 8).change_size (.val 2) (.val 3)).1.columns = 3 ∧
    ((Board.init 8 8).change_size (.val 2) (.val 3)).1.board_state = zeroGrid 2 3 ∧
    (∀ i j : Nat,
      getCell ((Board.init 8 8).change_size (.val 2) (.val 3)).1.board_state i j = 0) ∧
    ((Board.init 8 8).change_size (.val 2) (.val 3)).1.previous_state =
      (Board.init 8 8).previous_state ∧
    ((Board.init 8 8).change_size (.val 2) (.val 3)).1.p_live =
      (Board.init 8 8).p_live :=
  resize_success_effects (Board.init 8 8) (.val 2) (.val 3) 2 3 rfl rfl
    (by decide) (by decide)

/-- C7 counterexample: `clear` does not discard `previous_state` — on a
board carrying a snapshot, the snapshot is still there after `clear`. -/
theorem reset_keeps_previous_counterexample :
    (historyBoard.clear).previous_state ≠ none ∧
    (historyBoard.clear).previous_state = some [[1]] := by
  refine ⟨?_, rfl⟩
  intro h
  cases h

/-- C7 (amended): `clear` sets every cell of the current
`rows × columns` grid to DEAD, never fails, keeps the dimensions, and
leaves `previous_state` unchanged (it is not discarded). -/
theorem reset_effects (b : Board) :
    (b.clear).rows = b.rows ∧
    (b.clear).columns = b.columns ∧
    (b.clear).board_state = zeroGrid b.rows b.columns ∧
    (∀ i j : Nat, getCell (b.clear).board_state i j = 0) ∧
    (b.clear).previous_state = b.previous_state ∧
    (b.clear).p_live = b.p_live :=
  ⟨rfl, rfl, rfl, fun i j => getCell_zeroGrid b.rows b.columns i j, rfl, rfl⟩

/-- C4: `customise` fails with `ShapeMismatch` whenever the submitted
grid's outer length differs from `rows` or some inner row's length
differs from `columns`; for a non-empty grid of the right shape it
fails with `InvalidCellValue` whenever some entry is neither 0 nor 1;
any failure leaves the board completely unchanged (validation precedes
mutation); and on success the cells are replaced wholesale with the
submitted grid. -/
theorem customise_validation (b : Board) (g : Grid) :
    (((g.length : Int) ≠ b.rows ∨ ∃ row ∈ g, (row.length : Int) ≠ b.columns) →
      b.customise g = (b, some .shapeMismatch)) ∧
    ((g ≠ [] ∧ (g.length : Int) = b.rows ∧
        (∀ row ∈ g, (row.length : Int) = b.columns) ∧
        ∃ row ∈ g, ∃ cell ∈ row, ¬(cell = 0 ∨ cell = 1)) →
      b.customise g = (b, some .invalidCellValue)) ∧
    (∀ e : BoardError, (b.customise g).2 = some e → (b.customise g).1 = b) ∧
    ((b.customise g).2 = none → (b.customise g).1 = { b with board_state := g }) := by
  refine ⟨?_, ?_, ?_, ?_⟩
  · intro h
    unfold Board.customise
    rw [if_pos]
    rcases h with h | ⟨row, hrow, hlen⟩
    · exact Or.inr (Or.inl h)
    · refine Or.inr (Or.inr ?_)
      rw [List.any_eq_true]
      exact ⟨row, hrow, by simpa using hlen⟩
  · rintro ⟨hne, hlen, hcols, row, hrow, cell, hcell, hbad⟩
    unfold Board.customise
    rw [if_neg, if_pos]
    · rw [List.any_eq_true]
      refine ⟨row, hrow, ?_⟩
      rw [List.any_eq_true]
      exact ⟨cell, hcell, by simpa using hbad⟩
    · intro hcon
      rcases hcon with h1 | h2 | h3
      · exact hne h1
      · exact h2 hlen
      · rw [List.any_eq_true] at h3
        obtain ⟨row2, hrow2, hd⟩ := h3
        rw [decide_eq_true_eq] at hd
        exact hd (hcols row2 hrow2)
  · intro e he
    unfold Board.customise at he ⊢
    split_ifs at he ⊢ <;> rfl
  · intro hnone
    unfold Board.customise at hnone ⊢
    split_ifs at hnone ⊢
    rfl

/-- Witness for C4: a 3×3 grid submitted to an 8×8 board is rejected
with `ShapeMismatch`. -/
theorem customise_validation_witness :
    (Board.init 8 8).customise [[0, 0, 0], [0, 0, 0], [0, 0, 0]] =
      (Board.init 8 8, some .shapeMismatch) :=
  (customise_validation (Board.init 8 8) [[0, 0, 0], [0, 0, 0], [0, 0, 0]]).1
    (Or.inl (by decide))

/-- C8: a successful `customise` call does not alter `previous_state`,
`rows`, `columns`, or `p_live`. -/
theorem customise_preserves_previous (b : Board) (g : Grid)
    (h : (b.customise g).2 = none) :
    (b.customise g).1.previous_state = b.previous_state ∧
    (b.customise g).1.rows = b.rows ∧
    (b.customise g).1.columns = b.columns ∧
    (b.customise g).1.p_live = b.p_live := by
  clear h
  unfold Board.customise
  split_ifs <;> exact ⟨rfl, rfl, rfl, rfl⟩

/-- Witness for C8 at a successful 2×2 customise. -/
theorem customise_preserves_previous_witness :
    ((Board.init 2 2).customise [[1, 0], [0, 1]]).1.previous_state =
      (Board.init 2 2).previous_state ∧
    ((Board.init 2 2).customise [[1, 0], [0, 1]]).1.rows = (Board.init 2 2).rows ∧
    ((Board.init 2 2).customise [[1, 0], [0, 1]]).1.columns =
      (Board.init 2 2).columns ∧
    ((Board.init 2 2).customise [[1, 0], [0, 1]]).1.p_live =
      (Board.init 2 2).p_live :=
  customise_preserves_previous (Board.init 2 2) [[1, 0], [0, 1]] (by decide)

/-- C9: `set_p_live` stores `clamp(p, 0, 1)` — after any call
`p_live ∈ [0,1]`, with `p < 0` stored as 0 and `p > 1` stored as 1 —
and leaves `board_state`, `rows`, `columns` and `previous_state`
untouched. -/
theorem set_p_live_clamps (b : Board) (p : ℚ) :
    (b.set_p_live p).p_live = max 0 (min 1 p) ∧
    0 ≤ (b.set_p_live p).p_live ∧
    (b.set_p_live p).p_live ≤ 1 ∧
    (p < 0 → (b.set_p_live p).p_live = 0) ∧
    (1 < p → (b.set_p_live p).p_live = 1) ∧
    (b.set_p_live p).board_state = b.board_state ∧
    (b.set_p_live p).rows = b.rows ∧
    (b.set_p_live p).columns = b.columns ∧
    (b.set_p_live p).previous_state = b.previous_state := by
  refine ⟨rfl, le_max_left _ _, ?_, ?_, ?_, rfl, rfl, rfl, rfl⟩
  · show max 0 (min 1 p) ≤ 1
    rw [max_le_iff]
    exact ⟨by norm_num, min_le_left _ _⟩
  · intro hp
    show max 0 (min 1 p) = 0
    rw [min_eq_right (by linarith), max_eq_left (by linarith)]
  · intro hp
    show max 0 (min 1 p) = 1
    rw [min_eq_left (by linarith), max_eq_right (by norm_num)]

/-- Witness for C9 at `p = 2`: stored value is 1. -/
theorem set_p_live_clamps_witness :
    ((Board.init 1 1).set_p_live 2).p_live = 1 :=
  (set_p_live_clamps (Board.init 1 1) 2).2.2.2.2.1 (by norm_num)

/-- C5: whenever `randomize` commits (returns a board), the committed
grid contains at least one ALIVE cell — the retry loop only exits once
`check_for_life` holds. -/
theorem randomize_commits_live_grid (b : Board) (rand : Nat → ℚ) (fuel : Nat)
    (b' : Board) (hp0 : 0 < b.p_live) (hp1 : b.p_live ≤ 1)
    (h : b.randomize rand fuel = some b') :
    ∃ i j : Nat, i < b'.rows.toNat ∧ j < b'.columns.toNat ∧
      getCell b'.board_state i j = 1 := by
  have hl := randomizeAux_life b rand fuel 0 b' h
  exact (check_for_life_iff b').mp hl

/-- Witness for C5: a 1×1 board with `p_live = 1` and the constant-zero
draw stream commits after one sample, and the committed grid has an
ALIVE cell. -/
theorem randomize_commits_live_grid_witness :
    ∃ b' : Board,
      ((Board.init 1 1).set_p_live 1).randomize (fun _ => 0) 1 = some b' ∧
      ∃ i j : Nat, i < b'.rows.toNat ∧ j < b'.columns.toNat ∧
        getCell b'.board_state i j = 1 := by
  refine ⟨{ rows := 1, columns := 1, board_state := [[1]], previous_state := none,
            p_live := 1 }, ?_, ?_⟩
  · decide
  · refine randomize_commits_live_grid ((Board.init 1 1).set_p_live 1) (fun _ => 0) 1 _
      ?_ ?_ (by decide)
    · show (0 : ℚ) < max 0 (min 1 1)
      norm_num
    · show max 0 (min 1 1) ≤ (1 : ℚ)
      norm_num

end Lifegame
